import Mathlib

/-!
Verification development for the fragment-composition engine of
`opendesk/synthetis` (`src/lib/Route.js` concatenating the Route, Renderer,
FragmentManager and Fragment modules, plus `src/lib/render.js`,
`src/lib/FragmentBody.js` and the error classes).

The JavaScript code is shallowly embedded: JS runtime values that flow
through the engine are the inductive `JsValue`; promise rejection / thrown
errors are the `Except JsError` monad; the caller-supplied asynchronous
fragment fetcher is a function field of `Manager`; the external doT template
evaluator (`dotEngine.template(str)(data)`) is an opaque function field
`dotTemplate` of `Renderer`.  The recursion of `Renderer.renderRecursive`
is driven by the remaining depth budget `MAX_DEPTH + 1 - currentDepth`
threaded as structural fuel, so every definition evaluates by `rfl`;
`renderRecursive_eq` recovers the source-shaped unfolding.
-/

set_option autoImplicit false

/-- Error values (`src/lib/errors.js`): `plain` is a bare `new Error(message)`,
`fragmentRender` is `new FragmentRenderError(original)`; the wrapper keeps the
original error and copies its message. -/
inductive JsError where
  | plain (message : String)
  | fragmentRender (original : JsError)

/-- Embeds the JS `error instanceof FragmentRenderError` test. -/
def isFragmentRenderError : JsError → Bool
  | .fragmentRender _ => true
  | .plain _ => false

/-- Message of an error; `FragmentRenderError` copies the message of the
wrapped error (see the `BaseError` constructor). -/
def jsErrorMessage : JsError → String
  | .plain m => m
  | .fragmentRender e => jsErrorMessage e

/-- The `name` property set by the `BaseError` constructor
(`this.name = this.constructor.name`). -/
def jsErrorName : JsError → String
  | .plain _ => "Error"
  | .fragmentRender _ => "FragmentRenderError"

/-- JS `String(error)`, i.e. `name + ": " + message`. -/
def jsErrorToString (e : JsError) : String := jsErrorName e ++ ": " ++ jsErrorMessage e

/-- JS runtime values flowing through the engine: fetched fragment bodies,
template data contexts, inline data.  `err` is an `Error` instance stored as
a value (the fetcher may resolve with a captured error when called with
`neverHandleError`); `undef` is `undefined`. -/
inductive JsValue where
  | undef
  | bool (b : Bool)
  | num (n : Int)
  | str (s : String)
  | err (e : JsError)
  | arr (xs : List JsValue)
  | obj (fields : List (String × JsValue))

/-- JS truthiness: `undefined`, `false`, `0` and `""` are falsy; every
object (arrays, plain objects, Error instances) is truthy. -/
def JsValue.truthy : JsValue → Bool
  | .undef => false
  | .bool b => b
  | .num n => !(n == 0)
  | .str s => !(s.data.isEmpty)
  | .err _ => true
  | .arr _ => true
  | .obj _ => true

/-- Embeds `typeof v === 'undefined'`. -/
def JsValue.isUndef : JsValue → Bool
  | .undef => true
  | _ => false

/-- Embeds `typeof v === 'string'`. -/
def JsValue.isStr : JsValue → Bool
  | .str _ => true
  | _ => false

/-- Embeds `v instanceof Error`. -/
def JsValue.isErr : JsValue → Bool
  | .err _ => true
  | _ => false

/-- Truthiness of the JS expression `v.length`: arrays and strings have a
numeric `length` property (falsy exactly when 0); on every other value the
property access yields `undefined`, which is falsy. -/
def jsLengthTruthy : JsValue → Bool
  | .arr xs => !(xs.isEmpty)
  | .str s => !(s.data.isEmpty)
  | _ => false

/-- Stringification of one array element during `Array.prototype.toString`
(JS `join(',')` maps `undefined` to the empty string).  An array nested
inside an array is rendered as the empty string here instead of being
joined recursively; no value produced by the engine reaches that case. -/
def jsPrimToString : JsValue → String
  | .undef => ""
  | .bool b => cond b "true" "false"
  | .num n => toString n
  | .str s => s
  | .err e => jsErrorToString e
  | .obj _ => "[object Object]"
  | .arr _ => ""

/-- Join of array elements with `,` (JS `Array.prototype.toString`). -/
def jsArrayElemsToString : List JsValue → String
  | [] => ""
  | [v] => jsPrimToString v
  | v :: vs => jsPrimToString v ++ "," ++ jsArrayElemsToString vs

/-- JS `String(v)` coercion, as applied by string concatenation: strings are
themselves, `undefined` prints `undefined`, plain objects print
`[object Object]`, arrays join their elements with `,`. -/
def jsToString : JsValue → String
  | .undef => "undefined"
  | .bool b => cond b "true" "false"
  | .num n => toString n
  | .str s => s
  | .err e => jsErrorToString e
  | .obj _ => "[object Object]"
  | .arr xs => jsArrayElemsToString xs

/-- Embeds the JS expression `a || b` on engine values. -/
def jsOr (a b : JsValue) : JsValue := if a.truthy then a else b

/-- Truthiness of a JS array value: arrays are objects and objects are
always truthy, whatever their contents. -/
def jsArrayTruthy (_xs : List String) : Bool := true

/-- Embeds the JS expression `a || b` where `a` holds an array value (the
`requiredSources` computed by `_testInjectAttributes` is always an array,
possibly empty).  Because arrays are truthy this always returns `a`. -/
def jsListOr (a b : List String) : List String := if jsArrayTruthy a then a else b

/-- First-match property lookup in a JS-object field list (own keys are
unique by construction, see `objSet`). -/
def jsLookup {α : Type} : List (String × α) → String → Option α
  | [], _ => none
  | (k, v) :: rest, name => if k == name then some v else jsLookup rest name

/-- JS property assignment `acc[key] = v`: overwrite in place if the key
exists (keeping its position, as JS property order does), else append. -/
def objSet {α : Type} : List (String × α) → String → α → List (String × α)
  | [], k, v => [(k, v)]
  | (k0, v0) :: rest, k, v =>
    if k0 == k then (k0, v) :: rest else (k0, v0) :: objSet rest k v

/-- Embeds `Object.assign(target, src)`: every property of `src` is
assigned onto `target` in order. -/
def objAssign {α : Type} (target src : List (String × α)) : List (String × α) :=
  src.foldl (fun acc kv => objSet acc kv.1 kv.2) target

/-- Split a character list at every occurrence of `sep` (JS
`String.prototype.split` with a one-character separator). -/
def splitOnSep (sep : Char) : List Char → List (List Char)
  | [] => [[]]
  | c :: cs =>
    let r := splitOnSep sep cs
    if c == sep then [] :: r
    else
      match r with
      | [] => [[c]]
      | h :: t => (c :: h) :: t

/-- Decimal digit run to a number, for array indices inside property paths. -/
def decDigitsAux : List Char → Nat → Option Nat
  | [], acc => some acc
  | c :: cs, acc => if c.isDigit then decDigitsAux cs (acc * 10 + (c.toNat - 48)) else none

/-- Parse a nonempty all-digit key as a `Nat`. -/
def decDigitsToNat : List Char → Option Nat
  | [] => none
  | cs => decDigitsAux cs 0

/-- Walk a dotted property path through objects (field lookup) and arrays
(numeric index); any miss yields `undefined`.  Models `lodash.get` on the
plain dotted paths the engine uses. -/
def getPathValue : JsValue → List (List Char) → JsValue
  | v, [] => v
  | JsValue.obj fields, k :: ks =>
    (match jsLookup fields k.asString with
     | some v => getPathValue v ks
     | none => JsValue.undef)
  | JsValue.arr xs, k :: ks =>
    (match decDigitsToNat k with
     | some i =>
       match xs.get? i with
       | some v => getPathValue v ks
       | none => JsValue.undef
     | none => JsValue.undef)
  | _, _ => JsValue.undef

/-- Embeds `getProperty(sources, path)` (`lodash.get`) for a dotted path. -/
def getProperty (v : JsValue) (path : String) : JsValue :=
  getPathValue v (splitOnSep '.' path.data)

/-- First path component, embedding `path.split('.')[0]`. -/
def rootOfPath (path : String) : String :=
  ((splitOnSep '.' path.data).headD []).asString

/-- JS `s.substring(a, b)`: arguments are swapped when out of order and
clamped to the string bounds. -/
def jsSubstring (s : String) (a b : Nat) : String :=
  ((s.data.take (max a b)).drop (min a b)).asString

/-- JS `s.substring(a)`: suffix from `a`, clamped. -/
def jsSubstringFrom (s : String) (a : Nat) : String :=
  (s.data.drop a).asString

/-- JS `parts.join('')` on the per-element render results. -/
def jsJoinEmpty : List String → String
  | [] => ""
  | s :: rest => s ++ jsJoinEmpty rest

/-- Sequential settlement of a list of fallible computations; the first
rejection wins.  Deterministic embedding of the `Promise.all` /
`Promise.props` fan-in barriers (and of the synchronous `map` loops that
may throw), evaluated in source order. -/
def exceptMapM {α β : Type} (f : α → Except JsError β) : List α → Except JsError (List β)
  | [] => .ok []
  | a :: as =>
    match f a with
    | .error e => .error e
    | .ok b =>
      match exceptMapM f as with
      | .error e => .error e
      | .ok bs => .ok (b :: bs)

/-! ## Tag scanning

The Renderer scans with
`/<fragment-inject ([^>]+)>([\s\S]*?)<\/fragment-inject>/igm` and per-match
attribute regexes; the scanner below reproduces that matching discipline on
character lists (case-insensitive search, greedy `[^>]+` capture, lazy body
capture up to the first closing literal, resumption at `lastIndex`). -/

/-- JS `\s` on the ASCII range (space, tab, newline, carriage return,
vertical tab, form feed). -/
def jsIsSpace (c : Char) : Bool :=
  c == ' ' || c == '\t' || c == '\n' || c == '\r' || c.toNat == 11 || c.toNat == 12

/-- Case-insensitive literal-prefix test; the needle is already lowercase. -/
def isPrefixCI : List Char → List Char → Bool
  | [], _ => true
  | _ :: _, [] => false
  | n :: ns, h :: hs => (n == h.toLower) && isPrefixCI ns hs

/-- Index of the first case-insensitive occurrence of the (lowercase,
nonempty) needle. -/
def findFromCI (needle : List Char) : List Char → Option Nat
  | [] => none
  | h :: t => if isPrefixCI needle (h :: t) then some 0 else (findFromCI needle t).map (· + 1)

/-- Index of the first `>` character. -/
def findGtIdx : List Char → Option Nat
  | [] => none
  | c :: cs => if c == '>' then some 0 else (findGtIdx cs).map (· + 1)

/-- The opening literal of the injection-tag regex. -/
def openTagKey : List Char := "<fragment-inject ".data

/-- The closing literal of the injection-tag regex. -/
def closeTagKey : List Char := "</fragment-inject>".data

/-- One regex match: `match.index`, capture 1 (the attribute text, free of
`>`), capture 2 (the raw embedded template) and the regex `lastIndex`
after the match. -/
structure TagMatch where
  index : Nat
  attribs : String
  template : String
  lastIndex : Nat

/-- Repeated `exec` of the injection-tag regex over the suffix of the input
starting at absolute offset `offset`.  A candidate opening literal whose
attribute capture would be empty cannot match (`[^>]+` needs one
character), so the engine resumes one character later; if no `>` or no
closing literal remains, no later start can complete a match either.  The
fuel argument only bounds the loop (every step consumes at least one
character, and the initial fuel exceeds the input length). -/
def scanAux : Nat → List Char → Nat → List TagMatch
  | 0, _, _ => []
  | fuel + 1, hay, offset =>
    match findFromCI openTagKey hay with
    | none => []
    | some p =>
      let afterOpen := hay.drop (p + openTagKey.length)
      match findGtIdx afterOpen with
      | none => []
      | some q =>
        if q == 0 then
          scanAux fuel (hay.drop (p + 1)) (offset + p + 1)
        else
          let attrs := afterOpen.take q
          let afterGt := afterOpen.drop (q + 1)
          match findFromCI closeTagKey afterGt with
          | none => []
          | some r =>
            let lastIndex := offset + p + openTagKey.length + q + 1 + r + closeTagKey.length
            { index := offset + p, attribs := attrs.asString,
              template := (afterGt.take r).asString, lastIndex := lastIndex }
              :: scanAux fuel (afterGt.drop (r + closeTagKey.length)) lastIndex

/-- All matches of `_regExpFragmentInject()` over a body, in order. -/
def scanTags (s : String) : List TagMatch := scanAux (s.data.length + 1) s.data 0

/-! ## Attribute parsing (`Renderer._testInjectAttributes`) -/

/-- Right boundary of a bare-flag attribute regex `(?:$|\s|>)`. -/
def flagBoundaryAfter : List Char → Bool
  | [] => true
  | c :: _ => jsIsSpace c || c == '>'

/-- Scan for the flag word with a start-or-whitespace boundary before it
(`atB` records whether the previous character was such a boundary). -/
def hasFlagAux (flag : List Char) : Bool → List Char → Bool
  | _, [] => false
  | atB, c :: cs =>
    (atB && isPrefixCI flag (c :: cs) && flagBoundaryAfter ((c :: cs).drop flag.length))
      || hasFlagAux flag (jsIsSpace c) cs

/-- Embeds `/(?:^|\s)FLAG(?:$|\s|>)/im.test(attribs)` for a bare flag such
as `template` or `required`. -/
def hasFlagCI (flag : List Char) (s : List Char) : Bool := hasFlagAux flag true s

/-- Quote character of the attribute-value regexes (`["']`). -/
def isQuoteChar (c : Char) : Bool := c.toNat == 34 || c.toNat == 39

/-- A character admissible in an attribute value (`[^\s>]`). -/
def isValueChar (c : Char) : Bool := !(jsIsSpace c) && c != '>'

/-- Maximal run of value characters. -/
def takeValueRun : List Char → List Char
  | [] => []
  | c :: cs => if isValueChar c then c :: takeValueRun cs else []

/-- Index of the last quote character in a list, if any. -/
def lastQuoteIdx : List Char → Option Nat
  | [] => none
  | c :: cs =>
    match lastQuoteIdx cs with
    | some j => some (j + 1)
    | none => if isQuoteChar c then some 0 else none

/-- Embeds `exec` of `/KEY=["']([^\s>]+)["']/im`: at the leftmost
case-insensitive occurrence of `KEY=` followed by a quote, the greedy
`[^\s>]+` backtracks to the last quote inside the value run, leaving a
nonempty capture; if no start completes a match the result is `none`.
The needle `key` includes the `=` and is lowercase. -/
def execValueAttrAux (key : List Char) : List Char → Option (List Char)
  | [] => none
  | c :: cs =>
    match
      (if isPrefixCI key (c :: cs) then
        match (c :: cs).drop key.length with
        | q :: rest =>
          if isQuoteChar q then
            let run := takeValueRun rest
            match lastQuoteIdx run with
            | some j => if 1 ≤ j then some (run.take j) else none
            | none => none
          else none
        | [] => none
      else none) with
    | some v => some v
    | none => execValueAttrAux key cs

/-- Attribute-value extraction returning a string. -/
def execValueAttrCI (key : List Char) (s : List Char) : Option String :=
  (execValueAttrAux key s).map List.asString

/-- JS `String.prototype.trim` on characters. -/
def trimChars (l : List Char) : List Char :=
  ((l.dropWhile jsIsSpace).reverse.dropWhile jsIsSpace).reverse

/-- The parse of one tag's attribute text, as returned (as an array) by
`Renderer._testInjectAttributes`. -/
structure InjectAttributes where
  containsTemplate : Bool
  iterateOverDataName : Option String
  templateNameToInject : Option String
  specifiedRequired : Bool
  requiredSources : List String

/-- Embeds `Renderer._testInjectAttributes`: the `template` and `required`
bare flags, the `fragment-repeat` and `fragment-name` values, and the
`models` value split on commas and trimmed (defaulting to the empty
array). -/
def testInjectAttributes (commandAttribs : String) : InjectAttributes :=
  { containsTemplate := hasFlagCI "template".data commandAttribs.data
    iterateOverDataName := execValueAttrCI "fragment-repeat=".data commandAttribs.data
    templateNameToInject := execValueAttrCI "fragment-name=".data commandAttribs.data
    specifiedRequired := hasFlagCI "required".data commandAttribs.data
    requiredSources :=
      match execValueAttrCI "models=".data commandAttribs.data with
      | some c => (splitOnSep ',' c.data).map (fun l => (trimChars l).asString)
      | none => [] }

/-! ## Fragment, FragmentBody and FragmentManager -/

/-- A configured fallback message: either a literal value or a callback of
the triggering error (`contentMissingMessage` / `contentRenderErrorMessage`
options of a Fragment). -/
inductive MsgCfg where
  | literal (v : JsValue)
  | callback (f : JsError → JsValue)

/-- Resolution of a configured message: `typeof m === 'function' ? m(e) : m`;
an unset option is `undefined`. -/
def resolveMsgCfg : Option MsgCfg → JsError → JsValue
  | none, _ => .undef
  | some (.literal v), _ => v
  | some (.callback g), e => g e

/-- The Fragment data entity (`src/lib/Fragment.js`), restricted to the
fields the composition engine reads.  `data` is the inline `localData`
handed to fetchers; `requiredDataCfg` is the raw `requiredData` option
(possibly unset). -/
structure Fragment where
  required : Bool := false
  requiredDataCfg : Option (List String) := none
  data : JsValue := .undef
  bodyType : Option String := none
  contentMissingMessageCfg : Option MsgCfg := none
  contentRenderErrorMessageCfg : Option MsgCfg := none

/-- Getter `isRequired`, i.e. `!!this._required`. -/
def Fragment.isRequired (f : Fragment) : Bool := f.required

/-- Getter `requiredData`, i.e. `this._requiredData || []` (an array option
is truthy even when empty, so only an unset option falls back). -/
def Fragment.requiredData (f : Fragment) : List String := f.requiredDataCfg.getD []

/-- Embeds `Fragment.contentMissingMessage(fetchError)`: resolves the
configured message, falls back to the default text, and returns the
`{ body, contentType }` record, whose content type depends on whether the
resolved (pre-default) message was a string. -/
def Fragment.contentMissingMessage (f : Fragment) (e : JsError) : JsValue :=
  let message := resolveMsgCfg f.contentMissingMessageCfg e
  JsValue.obj
    [("body", jsOr message (.str "<p>Sorry this content could not be fetched. Please try again.</p>")),
     ("contentType", .str (if message.isStr then "text/html" else "application/json"))]

/-- Embeds `Fragment.contentRenderErrorMessage(fetchError)`: the resolved
message or the default text. -/
def Fragment.contentRenderErrorMessage (f : Fragment) (e : JsError) : JsValue :=
  let message := resolveMsgCfg f.contentRenderErrorMessageCfg e
  jsOr message (.str "<p>Sorry this content could not be rendered. Please try again.</p>")

/-- Options object passed to the fetcher (only `neverHandleError` is ever
set by the engine). -/
structure FetchOptions where
  neverHandleError : Bool := false

/-- The FragmentBody value pair (`src/lib/FragmentBody.js`). -/
structure FragmentBody where
  body : JsValue
  contentType : String := "text/html"

/-- The request-scoped FragmentManager: the instantiated name→Fragment
table and the caller-supplied fetcher (already closed over the fixed
request context).  The fetcher argument is an `Option Fragment` because
`fragmentBody` passes the raw table lookup, which is `undefined` for an
absent name. -/
structure Manager where
  sourceFragments : List (String × Fragment)
  fetch : Option Fragment → FetchOptions → Except JsError FragmentBody

/-- Embeds `FragmentManager.fragment(name)`: raw table lookup. -/
def Manager.fragment (m : Manager) (name : String) : Option Fragment :=
  jsLookup m.sourceFragments name

/-- Embeds `FragmentManager.hasFragment(name)` (`!!this._sourceFragments[name]`). -/
def Manager.hasFragment (m : Manager) (name : String) : Bool :=
  (m.fragment name).isSome

/-- Embeds `FragmentManager.fetchFragmentBody(template, options)`: fetch the
given Fragment instance and project the body. -/
def Manager.fetchFragmentBody (m : Manager) (template : Fragment) (options : FetchOptions) :
    Except JsError JsValue :=
  (m.fetch (some template) options).map (·.body)

/-- Embeds `FragmentManager.fragmentBody(name, options)`: the fetcher is
invoked directly on `this._sourceFragments[name]` — there is no existence
check, an absent name reaches the fetcher as `undefined`. -/
def Manager.fragmentBody (m : Manager) (name : String) (options : FetchOptions) :
    Except JsError JsValue :=
  (m.fetch (m.fragment name) options).map (·.body)

/-- The Renderer instance: its manager plus the external doT evaluator
`dotEngine.template(str)(dataForView)` (opaque to the engine; a thrown
compile or render error is the `Except.error` case).  The logger is not
modelled. -/
structure Renderer where
  manager : Manager
  dotTemplate : String → JsValue → Except JsError String

/-! ## The Renderer pipeline -/

/-- The depth ceiling (`const MAX_DEPTH = 5`). -/
def MAX_DEPTH : Nat := 5

/-- The per-match data closed over by `_boundFragmentRender`: resolved
target fragment, the tag's own `required` flag, `models` list, optional
`fragment-repeat` path, and the match offsets. -/
structure Job where
  toInject : Fragment
  isRequired : Bool
  requiredSources : List String
  repeatedDataName : Option String
  matchIndex : Nat
  lastIndex : Nat

/-- Template resolution for one match, from the body of the scan loop in
`Renderer.renderRecursive`: a named fragment must exist in the manager
(else the loop returns a rejection before scheduling anything further), an
embedded template synthesizes an anonymous html Fragment
(`fragment.html({required, data})()`), and a tag with neither fails. -/
def buildJob (mgr : Manager) (m : TagMatch) : Except JsError Job :=
  let a := testInjectAttributes m.attribs
  match a.templateNameToInject with
  | some templateNameToInject =>
    (match mgr.fragment templateNameToInject with
     | none =>
       .error (.plain ("A source fragment does not exist with name " ++ templateNameToInject))
     | some template =>
       .ok { toInject := template, isRequired := a.specifiedRequired,
             requiredSources := a.requiredSources, repeatedDataName := a.iterateOverDataName,
             matchIndex := m.index, lastIndex := m.lastIndex })
  | none =>
    if a.containsTemplate then
      .ok { toInject := { required := a.specifiedRequired, data := JsValue.str m.template,
                          bodyType := some "html" },
            isRequired := a.specifiedRequired, requiredSources := a.requiredSources,
            repeatedDataName := a.iterateOverDataName,
            matchIndex := m.index, lastIndex := m.lastIndex }
    else .error (.plain "A fragment inject found with no name or embed")

/-- The synchronous phase of the scan loop over all matches; the first
failure aborts before any later match is scheduled. -/
def buildJobs (mgr : Manager) (ms : List TagMatch) : Except JsError (List Job) :=
  exceptMapM (buildJob mgr) ms

/-- The message of the `InvalidRepeatSource` error thrown by
`_renderFragment`. -/
def invalidRepeatSourceMsg (accessor : String) : String :=
  "Attempting to render a list of data with source which doesnt exist or isnt specified as a dependency with accessor " ++ accessor

/-- The message of the `MissingDataSource` error thrown by
`_renderFragment`. -/
def missingDataSourceMsg (name : String) : String :=
  "Attempting to render with a data source fragment which doesnt exist in configuration (name " ++ name ++ ")"

/-- The dependency-fetch phase of `_renderFragment`: the synchronous `map`
over `requiredSources` throws `MissingDataSource` for an unknown name and
otherwise starts a fetch (with `neverHandleError` exactly for the repeat
root); the `reduce` builds the keyed object (duplicate names overwrite in
place); `Promise.props` then settles every fetch. -/
def fetchSources (mgr : Manager) (requiredSources : List String)
    (repeatedDataNameFragName : Option String) : Except JsError (List (String × JsValue)) :=
  match
    exceptMapM (fun name =>
      if !mgr.hasFragment name then
        Except.error (JsError.fragmentRender (JsError.plain (missingDataSourceMsg name)))
      else
        Except.ok (name, mgr.fragmentBody name ⟨repeatedDataNameFragName == some name⟩))
      requiredSources with
  | .error e => .error e
  | .ok pairs =>
    let dataObject := pairs.foldl (fun acc kv => objSet acc kv.1 kv.2) []
    exceptMapM (fun kv =>
      match kv.2 with
      | .error e => Except.error e
      | .ok v => Except.ok (kv.1, v)) dataObject

/-- Embeds `Renderer._renderFragmentPart` with the recursive call
abstracted as `recur` (the callers instantiate it with
`renderRecursive · (currentDepth + 1)`): recurse into the body, hand the
result to the doT evaluator, and wrap any failure from either step as a
`FragmentRenderError`. -/
def renderFragmentPartGo (R : Renderer) (recur : JsValue → Except JsError JsValue)
    (fragmentBody dataForView : JsValue) : Except JsError String :=
  match
    (match recur fragmentBody with
     | .error e => Except.error e
     | .ok str => R.dotTemplate (jsToString str) dataForView) with
  | .ok s => .ok s
  | .error e => .error (.fragmentRender e)

/-- The `try` block of `Renderer._renderFragment`: repeat-source
validation, dependency fetching, then either the repeat path (captured
fetch failure → the root fragment's `contentMissingMessage` record;
otherwise iterate the resolved list with a `current` binding, or yield the
empty string) or the plain single render. -/
def renderFragmentTryGo (R : Renderer) (recur : JsValue → Except JsError JsValue)
    (fragmentContent : JsValue) (requiredSources : List String)
    (repeatedDataName : Option String) : Except JsError JsValue :=
  let repeatedDataNameFragName : Option String := repeatedDataName.map rootOfPath
  let repeatedDataNameFragment : Bool :=
    match repeatedDataNameFragName with
    | some r => R.manager.hasFragment r
    | none => false
  if repeatedDataName.isSome &&
      (!repeatedDataNameFragment ||
        !(match repeatedDataNameFragName with
          | some r => requiredSources.contains r
          | none => false)) then
    .error (.fragmentRender (.plain (invalidRepeatSourceMsg (repeatedDataName.getD ""))))
  else
    match fetchSources R.manager requiredSources repeatedDataNameFragName with
    | .error e => .error e
    | .ok sources =>
      match repeatedDataName, repeatedDataNameFragName with
      | some repeatPath, some rootName =>
        (match jsLookup sources rootName with
         | some (JsValue.err e) =>
           (match R.manager.fragment rootName with
            | some f => .ok (f.contentMissingMessage e)
            | none => .error (.plain "TypeError: contentMissingMessage of undefined"))
         | _ =>
           let dataBody := getProperty (JsValue.obj sources) repeatPath
           if dataBody.truthy && jsLengthTruthy dataBody then
             match dataBody with
             | JsValue.arr xs =>
               (match
                 exceptMapM (fun d =>
                   renderFragmentPartGo R recur fragmentContent
                     (JsValue.obj (objAssign [("current", d)] sources))) xs with
                | .error e => .error e
                | .ok rendered => .ok (.str (jsJoinEmpty rendered)))
             | _ => .error (.plain "TypeError: dataBody.map is not a function")
           else .ok (.str ""))
      | _, _ =>
        (match renderFragmentPartGo R recur fragmentContent (JsValue.obj sources) with
         | .error e => .error e
         | .ok s => .ok (.str s))

/-- Embeds `Renderer._renderFragment`: the `try` body above guarded by the
`catch` clause, which swallows a `FragmentRenderError` for a non-required
fragment, substituting `injectedFragment.contentRenderErrorMessage(error) || ''`,
and rethrows every other failure. -/
def renderFragmentGo (R : Renderer) (recur : JsValue → Except JsError JsValue)
    (injectedFragment : Fragment) (fragmentContent : JsValue) (isRequired : Bool)
    (requiredSources : List String) (repeatedDataName : Option String) :
    Except JsError JsValue :=
  match renderFragmentTryGo R recur fragmentContent requiredSources repeatedDataName with
  | .ok v => .ok v
  | .error e =>
    if isFragmentRenderError e && !isRequired then
      .ok (jsOr (injectedFragment.contentRenderErrorMessage e) (.str ""))
    else .error e

/-- Embeds `Renderer._boundFragmentRender`: fetch the resolved fragment's
body, render it with effective required-ness
`toInject.isRequired || isRequired` and effective sources
`requiredSources || toInject.requiredData`, and return the offset triple. -/
def boundFragmentRenderGo (R : Renderer) (recur : JsValue → Except JsError JsValue)
    (j : Job) : Except JsError (Nat × Nat × JsValue) :=
  match R.manager.fetchFragmentBody j.toInject ⟨false⟩ with
  | .error e => .error e
  | .ok content =>
    match
      renderFragmentGo R recur j.toInject content (j.toInject.isRequired || j.isRequired)
        (jsListOr j.requiredSources j.toInject.requiredData) j.repeatedDataName with
    | .error e => .error e
    | .ok rendered => .ok (j.matchIndex, j.lastIndex, rendered)

/-- Embeds `Renderer._injectReplacements`: fold the offset-ordered parts,
keeping the untouched text between matches, then append the tail. -/
def injectReplacements (sourceText : String) (parts : List (Nat × Nat × JsValue)) : String :=
  let z := parts.foldl
    (fun acc part => (part.2.1, acc.2 ++ jsSubstring sourceText acc.1 part.1 ++ jsToString part.2.2))
    ((0 : Nat), "")
  z.2 ++ jsSubstringFrom sourceText z.1

/-- One level of `Renderer.renderRecursive` below the depth check: the
undefined-body guard, the scan, the synchronous job construction, the
fan-out/fan-in over all matches, and the reconstruction. -/
def levelStep (R : Renderer) (recur : JsValue → Except JsError JsValue)
    (fragmentBody : JsValue) : Except JsError JsValue :=
  if fragmentBody.isUndef then .error (.plain "A fragment body is undefined")
  else
    let s := jsToString fragmentBody
    match buildJobs R.manager (scanTags s) with
    | .error e => .error e
    | .ok jobs =>
      match exceptMapM (fun j => boundFragmentRenderGo R recur j) jobs with
      | .error e => .error e
      | .ok parts => .ok (.str (injectReplacements s parts))

/-- Fuel-indexed renderer: fuel `0` is the exhausted depth budget
(`currentDepth > MAX_DEPTH`), which returns the body unchanged; otherwise
run one level with the recursion at one less fuel. -/
def renderRecursiveF (R : Renderer) : Nat → JsValue → Except JsError JsValue
  | 0, fragmentBody => .ok fragmentBody
  | fuel + 1, fragmentBody => levelStep R (fun b => renderRecursiveF R fuel b) fragmentBody

/-- Embeds `Renderer.renderRecursive(fragmentBody, currentDepth)`; the
remaining depth budget `MAX_DEPTH + 1 - currentDepth` drives the
recursion (see `renderRecursive_eq` for the source-shaped unfolding). -/
def renderRecursive (R : Renderer) (fragmentBody : JsValue) (currentDepth : Nat) :
    Except JsError JsValue :=
  renderRecursiveF R (MAX_DEPTH + 1 - currentDepth) fragmentBody

/-- Embeds `Renderer._renderFragmentPart` at a depth, recursing at
`currentDepth + 1`. -/
def renderFragmentPart (R : Renderer) (currentDepth : Nat) (fragmentBody dataForView : JsValue) :
    Except JsError String :=
  renderFragmentPartGo R (fun b => renderRecursive R b (currentDepth + 1)) fragmentBody dataForView

/-- Embeds `Renderer._renderFragment` at a depth, recursing at
`currentDepth + 1`. -/
def renderFragment (R : Renderer) (currentDepth : Nat) (injectedFragment : Fragment)
    (fragmentContent : JsValue) (isRequired : Bool) (requiredSources : List String)
    (repeatedDataName : Option String) : Except JsError JsValue :=
  renderFragmentGo R (fun b => renderRecursive R b (currentDepth + 1)) injectedFragment
    fragmentContent isRequired requiredSources repeatedDataName

/-- Embeds `Renderer._boundFragmentRender` at a depth, recursing at
`currentDepth + 1`. -/
def boundFragmentRender (R : Renderer) (currentDepth : Nat) (j : Job) :
    Except JsError (Nat × Nat × JsValue) :=
  boundFragmentRenderGo R (fun b => renderRecursive R b (currentDepth + 1)) j

/-! ## The top-level `render` entry point (`src/lib/render.js`) -/

/-- The manager as seen by `render`: the core table/fetcher used during
recursion, plus the base-fragment fetches.  Each call of `_fetchBase`
re-invokes the caller-supplied fetcher on a fresh `route.baseTemplate()`
instance; `fetchBase` is indexed by the invocation count so that separate
invocations stay observable in the pure embedding. -/
structure ManagerTop where
  core : Manager
  fetchBase : Nat → Except JsError FragmentBody

/-- Embeds `FragmentManager.baseBody()` as the `callIdx`-th base fetch. -/
def ManagerTop.baseBody (m : ManagerTop) (callIdx : Nat) : Except JsError JsValue :=
  (m.fetchBase callIdx).map (·.body)

/-- Embeds `FragmentManager.baseContentType()` as the `callIdx`-th base
fetch. -/
def ManagerTop.baseContentType (m : ManagerTop) (callIdx : Nat) : Except JsError String :=
  (m.fetchBase callIdx).map (·.contentType)

/-- Embeds `render(route, fragmentFetcher, context)`: fetch the base body
(first fetcher invocation), fetch the base content type (second, separate
invocation), recursively render the body at depth 1, and pair the result
with the content type from the second fetch. -/
def render (m : ManagerTop) (evalTemplate : String → JsValue → Except JsError String) :
    Except JsError FragmentBody :=
  match m.baseBody 0 with
  | .error e => .error e
  | .ok baseBody =>
    match m.baseContentType 1 with
    | .error e => .error e
    | .ok contentType =>
      match renderRecursive ⟨m.core, evalTemplate⟩ baseBody 1 with
      | .error e => .error e
      | .ok body => .ok { body := body, contentType := contentType }

/-! ## General lemmas about the embedding -/

/-- Prepending the empty string is the identity. -/
theorem string_empty_append (s : String) : "" ++ s = s := by
  rcases s with ⟨l⟩
  rfl

/-- String concatenation is associative. -/
theorem string_append_assoc (a b c : String) : (a ++ b) ++ c = a ++ (b ++ c) := by
  rcases a with ⟨la⟩; rcases b with ⟨lb⟩; rcases c with ⟨lc⟩
  show String.mk ((la ++ lb) ++ lc) = String.mk (la ++ (lb ++ lc))
  exact congrArg String.mk (List.append_assoc la lb lc)

/-- With no matches the reconstruction returns the source text unchanged. -/
theorem injectReplacements_nil (s : String) : injectReplacements s [] = s := by
  show "" ++ jsSubstringFrom s 0 = s
  rcases s with ⟨l⟩
  rfl

/-- With a single match the reconstruction is prefix, replacement, tail. -/
theorem injectReplacements_single (s : String) (i jEnd : Nat) (v : JsValue) :
    injectReplacements s [(i, jEnd, v)] =
      jsSubstring s 0 i ++ (jsToString v ++ jsSubstringFrom s jEnd) := by
  show ("" ++ jsSubstring s 0 i ++ jsToString v) ++ jsSubstringFrom s jEnd = _
  rw [string_empty_append, string_append_assoc]

/-- The source-shaped unfolding of `renderRecursive`: above the depth
ceiling the body comes back unchanged, otherwise one level runs with the
recursion continuing at `currentDepth + 1`. -/
theorem renderRecursive_eq (R : Renderer) (fragmentBody : JsValue) (currentDepth : Nat) :
    renderRecursive R fragmentBody currentDepth =
      if MAX_DEPTH < currentDepth then .ok fragmentBody
      else levelStep R (fun b => renderRecursive R b (currentDepth + 1)) fragmentBody := by
  unfold renderRecursive
  by_cases h : MAX_DEPTH < currentDepth
  · have h0 : MAX_DEPTH + 1 - currentDepth = 0 := by omega
    simp [h, h0, renderRecursiveF]
  · have h1 : MAX_DEPTH + 1 - currentDepth = (MAX_DEPTH - currentDepth) + 1 := by omega
    have h2 : MAX_DEPTH + 1 - (currentDepth + 1) = MAX_DEPTH - currentDepth := by omega
    simp [h, h1, h2, renderRecursiveF]

/-- A failing element anywhere after a clean prefix fails the whole
sequential settlement with that element's error, whatever follows it. -/
theorem exceptMapM_append_ok_error {α β : Type} (f : α → Except JsError β) :
    ∀ (l1 : List α) (res1 : List β), exceptMapM f l1 = .ok res1 →
      ∀ (x : α) (e : JsError), f x = .error e →
        ∀ (l2 : List α), exceptMapM f (l1 ++ x :: l2) = .error e := by
  intro l1
  induction l1 with
  | nil =>
    intro res1 _ x e hx l2
    simp only [List.nil_append, exceptMapM, hx]
  | cons a as ih =>
    intro res1 h1 x e hx l2
    rw [exceptMapM] at h1
    cases hfa : f a with
    | error e2 => rw [hfa] at h1; exact absurd h1 (by simp)
    | ok b =>
      rw [hfa] at h1
      cases hrest : exceptMapM f as with
      | error e2 => rw [hrest] at h1; exact absurd h1 (by simp)
      | ok bs =>
        have hres := ih bs hrest x e hx l2
        simp only [List.cons_append, exceptMapM, hfa]
        rw [show exceptMapM f (as.append (x :: l2)) = exceptMapM f (as ++ x :: l2) from rfl, hres]

/-- A match naming an unknown fragment makes the job construction fail
with the unknown-fragment error, whatever the other attributes say. -/
theorem buildJob_unknown (mgr : Manager) (m : TagMatch) (nm : String)
    (h1 : (testInjectAttributes m.attribs).templateNameToInject = some nm)
    (h2 : mgr.fragment nm = none) :
    buildJob mgr m = .error (.plain ("A source fragment does not exist with name " ++ nm)) := by
  simp only [buildJob, h1, h2]

/-! ## Concrete fixtures used by witnesses and counterexamples -/

/-- A fetcher in the style of the test suite's `localDataFetcher`: resolve
with the fragment's inline data; an `undefined` fragment is a rejection. -/
def localDataFetch : Option Fragment → FetchOptions → Except JsError FragmentBody :=
  fun of _ =>
    match of with
    | some f => .ok { body := f.data, contentType := "text/html" }
    | none => .error (.plain "fetcher saw undefined")

/-- A template evaluator that returns the template text unchanged (a doT
template with no directives). -/
def idEval : String → JsValue → Except JsError String := fun s _ => .ok s

/-- C1 fixture: `widget` declares `requiredData = ["dataModel"]` and
`dataModel` exists with inline data. -/
def c1Manager : Manager :=
  { sourceFragments :=
      [("widget", { requiredDataCfg := some ["dataModel"], data := .str "W" }),
       ("dataModel", { data := .str "DM" })],
    fetch := localDataFetch }

/-- C1 fixture: an evaluator that exposes whether `dataModel` reached the
data context. -/
def c1Eval : String → JsValue → Except JsError String :=
  fun tmpl d => .ok (tmpl ++ "|" ++ jsToString (getProperty d "dataModel"))

/-- C1 fixture renderer. -/
def c1Renderer : Renderer := { manager := c1Manager, dotTemplate := c1Eval }

/-- C2 fixture: an optional embedded fragment with a configured render
error message. -/
def c2Fragment : Fragment :=
  { required := false, data := .str "T", bodyType := some "html",
    contentRenderErrorMessageCfg := some (.literal (.str "EEK")) }

/-- C2 fixture: renderer whose evaluator always throws. -/
def c2Renderer : Renderer :=
  { manager := { sourceFragments := [], fetch := localDataFetch },
    dotTemplate := fun _ _ => .error (.plain "boom") }

/-- C2 fixture: the job for a single optional tag occupying offsets 0-40. -/
def c2Job : Job :=
  { toInject := c2Fragment, isRequired := false, requiredSources := [],
    repeatedDataName := none, matchIndex := 0, lastIndex := 40 }

/-- C3 fixture: an optional fragment `outer` whose body names the unknown
fragment `nope`. -/
def c3Manager : Manager :=
  { sourceFragments :=
      [("outer", { data := .str "<fragment-inject fragment-name=\"nope\"></fragment-inject>" })],
    fetch := localDataFetch }

/-- C3 fixture renderer. -/
def c3Renderer : Renderer := { manager := c3Manager, dotTemplate := idEval }

/-- A named injection tag, for building recursion chains. -/
def injTag (nm : String) : String :=
  "<fragment-inject fragment-name=\"" ++ nm ++ "\"></fragment-inject>"

/-- C4 fixture: a five-deep chain of named fragments; `f5`'s body still
contains a tag (naming `f6`, which nothing ever resolves). -/
def c4Manager : Manager :=
  { sourceFragments :=
      [("f1", { data := .str (injTag "f2") }),
       ("f2", { data := .str (injTag "f3") }),
       ("f3", { data := .str (injTag "f4") }),
       ("f4", { data := .str (injTag "f5") }),
       ("f5", { data := .str (injTag "f6") })],
    fetch := localDataFetch }

/-- C4 fixture renderer. -/
def c4Renderer : Renderer := { manager := c4Manager, dotTemplate := idEval }

/-- C5 fixture: a data fragment holding a two-element list. -/
def c5Manager : Manager :=
  { sourceFragments := [("items", { data := .obj [("list", .arr [.str "a", .str "b"])] })],
    fetch := localDataFetch }

/-- C5 fixture: an evaluator exposing the `current` binding. -/
def c5Eval : String → JsValue → Except JsError String :=
  fun tmpl d => .ok (tmpl ++ jsToString (getProperty d "current"))

/-- C5 fixture renderer. -/
def c5Renderer : Renderer := { manager := c5Manager, dotTemplate := c5Eval }

/-- C6 fixture: the repeat-root fragment whose fetch resolves with a
captured `Error` value and which has a configured missing-content
message. -/
def c6ItemsFragment : Fragment :=
  { data := .err (.plain "down"), contentMissingMessageCfg := some (.literal (.str "oops")) }

/-- C6 fixture manager. -/
def c6Manager : Manager :=
  { sourceFragments := [("items", c6ItemsFragment)], fetch := localDataFetch }

/-- C6 fixture renderer. -/
def c6Renderer : Renderer := { manager := c6Manager, dotTemplate := idEval }

/-- C7 fixture: `items` exists but the repeat path root `zzz` does not. -/
def c7Manager : Manager :=
  { sourceFragments := [("items", { data := .str "x" })], fetch := localDataFetch }

/-- C7 fixture renderer. -/
def c7Renderer : Renderer := { manager := c7Manager, dotTemplate := idEval }

/-- C7 fixture: the anonymous embedded fragment of the tag (no configured
messages, so the default render-error text applies). -/
def c7Fragment : Fragment := { required := false, data := .str "T", bodyType := some "html" }

/-- C8 fixture: a manager with an empty fragment table whose fetcher
succeeds on anything, even an `undefined` fragment. -/
def c8OkManager : Manager :=
  { sourceFragments := [], fetch := fun _ _ => .ok { body := .str "X", contentType := "text/html" } }

/-- C8 fixture: an empty manager whose fetcher rejects on an `undefined`
fragment. -/
def c8ErrManager : Manager := { sourceFragments := [], fetch := localDataFetch }

/-- C9 fixture renderer (nothing in it is ever consulted). -/
def c9Renderer : Renderer :=
  { manager := { sourceFragments := [], fetch := localDataFetch }, dotTemplate := idEval }

/-- C10 fixture: base fetches whose content type differs between the first
and the second invocation. -/
def c10Manager : ManagerTop :=
  { core := { sourceFragments := [], fetch := localDataFetch },
    fetchBase := fun n =>
      .ok { body := .str "B", contentType := if n == 0 then "text/plain" else "application/json" } }

/-! ## Claims -/

/-- C1: the claim says the effective data dependencies fall back to the
target fragment's declared `requiredDataNames` when the tag has no
`models` attribute.  In the code `_testInjectAttributes` always returns an
array (possibly empty) for `requiredSources`, and a JS array is truthy, so
the fallback `requiredSources || toInject.requiredData` in
`_boundFragmentRender` is dead: `jsListOr` always returns its first
argument.  Consequently a tag without `models` whose target declares
`requiredData = ["dataModel"]` renders with an empty data context —
`dataModel` is never fetched and the evaluator sees `undefined` for it. -/
theorem c1_effective_dependencies_models_only :
    (∀ (a b : List String), jsListOr a b = a) ∧
    (testInjectAttributes "fragment-name=\"widget\"").requiredSources = [] ∧
    renderRecursive c1Renderer
        (.str "<fragment-inject fragment-name=\"widget\"></fragment-inject>") 1
      = .ok (.str "W|undefined") :=
  ⟨fun _ _ => rfl, rfl, by rfl⟩

/-- C2: any failure while recursively rendering or evaluating a resolved
template is wrapped as a `FragmentRenderError` by `_renderFragmentPart`;
when the effective required-ness `toInject.isRequired || isRequired` is
false, `_renderFragment` swallows the wrapped failure and the tag's
position receives `contentRenderErrorMessage(error) || ''` (the configured
message or the default text), with the surrounding text reconstructed
untouched; when it is true the error propagates through the match, the
level and the top-level `render`, which then produces no output at all. -/
theorem c2_fragment_render_error_policy :
    (∀ (R : Renderer) (recur : JsValue → Except JsError JsValue) (body dataForView : JsValue)
       (e : JsError),
       (match recur body with
        | .error e2 => Except.error e2
        | .ok str => R.dotTemplate (jsToString str) dataForView) = .error e →
       renderFragmentPartGo R recur body dataForView = .error (.fragmentRender e)) ∧
    (∀ (R : Renderer) (recur : JsValue → Except JsError JsValue) (j : Job) (content : JsValue)
       (e : JsError),
       R.manager.fetchFragmentBody j.toInject ⟨false⟩ = .ok content →
       renderFragmentTryGo R recur content (jsListOr j.requiredSources j.toInject.requiredData)
           j.repeatedDataName = .error e →
       isFragmentRenderError e = true →
       (j.toInject.isRequired || j.isRequired) = false →
       boundFragmentRenderGo R recur j =
         .ok (j.matchIndex, j.lastIndex, jsOr (j.toInject.contentRenderErrorMessage e) (.str ""))) ∧
    (∀ (s : String) (i jEnd : Nat) (v : JsValue),
       injectReplacements s [(i, jEnd, v)] =
         jsSubstring s 0 i ++ (jsToString v ++ jsSubstringFrom s jEnd)) ∧
    (∀ (R : Renderer) (recur : JsValue → Except JsError JsValue) (j : Job) (content : JsValue)
       (e : JsError),
       R.manager.fetchFragmentBody j.toInject ⟨false⟩ = .ok content →
       renderFragmentTryGo R recur content (jsListOr j.requiredSources j.toInject.requiredData)
           j.repeatedDataName = .error e →
       (j.toInject.isRequired || j.isRequired) = true →
       boundFragmentRenderGo R recur j = .error e) ∧
    (∀ (R : Renderer) (s : String) (d : Nat) (jobs : List Job) (e : JsError),
       d ≤ MAX_DEPTH →
       buildJobs R.manager (scanTags s) = .ok jobs →
       exceptMapM (fun j => boundFragmentRenderGo R (fun b => renderRecursive R b (d + 1)) j)
           jobs = .error e →
       renderRecursive R (.str s) d = .error e) ∧
    (∀ (m : ManagerTop) (ev : String → JsValue → Except JsError String)
       (fb0 fb1 : FragmentBody) (e : JsError),
       m.fetchBase 0 = .ok fb0 → m.fetchBase 1 = .ok fb1 →
       renderRecursive ⟨m.core, ev⟩ fb0.body 1 = .error e →
       render m ev = .error e) := by
  refine ⟨?_, ?_, ?_, ?_, ?_, ?_⟩
  · intro R recur body dv e h
    simp only [renderFragmentPartGo, h]
  · intro R recur j content e hf ht hfre hreq
    simp only [boundFragmentRenderGo, hf, renderFragmentGo, ht, hfre, hreq, Bool.not_false,
      Bool.and_true, if_true]
  · intro s i jEnd v
    exact injectReplacements_single s i jEnd v
  · intro R recur j content e hf ht hreq
    simp only [boundFragmentRenderGo, hf, renderFragmentGo, ht, hreq, Bool.not_true,
      Bool.and_false, Bool.false_eq_true, if_false]
  · intro R s d jobs e hd hjobs hparts
    rw [renderRecursive_eq]
    have hnot : ¬ MAX_DEPTH < d := by omega
    simp only [hnot, if_false]
    show levelStep _ _ _ = _
    simp only [levelStep, JsValue.isUndef, Bool.false_eq_true, if_false, jsToString, hjobs,
      hparts]
  · intro m ev fb0 fb1 e h0 h1 hrec
    simp only [render, ManagerTop.baseBody, ManagerTop.baseContentType, h0, h1, Except.map, hrec]

/-- C2 witness: an optional embedded fragment whose evaluator throws; its
tag position receives the configured message `EEK`. -/
theorem c2_fragment_render_error_policy_witness :
    boundFragmentRenderGo c2Renderer (fun b => renderRecursive c2Renderer b 2) c2Job =
      .ok (c2Job.matchIndex, c2Job.lastIndex,
        jsOr (c2Job.toInject.contentRenderErrorMessage (.fragmentRender (.plain "boom")))
          (.str "")) :=
  c2_fragment_render_error_policy.2.1 c2Renderer (fun b => renderRecursive c2Renderer b 2)
    c2Job (.str "T") (.fragmentRender (.plain "boom")) (by rfl) (by rfl) (by rfl) (by rfl)

/-- C3 counterexample: an injection tag naming the unknown fragment `nope`
sits inside the body of the optional fragment `outer`.  The claim says
such a tag makes the entire render fail; instead the nested failure is
wrapped by `_renderFragmentPart` and swallowed by the required/optional
policy of `outer`, and the whole render succeeds with the default render
error message in the output. -/
theorem c3_unknown_fragment_counterexample :
    renderRecursive c3Renderer
        (.str "<fragment-inject fragment-name=\"outer\"></fragment-inject>") 1
      = .ok (.str "<p>Sorry this content could not be rendered. Please try again.</p>") := by
  rfl

/-- C3 amended: within one `renderRecursive` pass at legal depth, a match
naming an unknown fragment fails the job-construction loop with the
unknown-fragment error, whatever its other attributes (including
`required`) say and whatever matches follow it, and that failure is the
result of the whole pass.  (When the pass is a nested one, the failure is
then subject to the enclosing fragment's required/optional policy, see the
counterexample.) -/
theorem c3_unknown_fragment_amended :
    (∀ (mgr : Manager) (preMs : List TagMatch) (preJobs : List Job) (m : TagMatch)
       (restMs : List TagMatch) (nm : String),
       buildJobs mgr preMs = .ok preJobs →
       (testInjectAttributes m.attribs).templateNameToInject = some nm →
       mgr.fragment nm = none →
       buildJobs mgr (preMs ++ m :: restMs) =
         .error (.plain ("A source fragment does not exist with name " ++ nm))) ∧
    (∀ (R : Renderer) (s : String) (d : Nat) (e : JsError),
       d ≤ MAX_DEPTH →
       buildJobs R.manager (scanTags s) = .error e →
       renderRecursive R (.str s) d = .error e) := by
  constructor
  · intro mgr preMs preJobs m restMs nm hpre hname habs
    exact exceptMapM_append_ok_error (buildJob mgr) preMs preJobs hpre m _
      (buildJob_unknown mgr m nm hname habs) restMs
  · intro R s d e hd hjobs
    rw [renderRecursive_eq]
    have hnot : ¬ MAX_DEPTH < d := by omega
    simp only [hnot, if_false]
    show levelStep _ _ _ = _
    simp only [levelStep, JsValue.isUndef, Bool.false_eq_true, if_false, jsToString, hjobs]

/-- C3 witness: a concrete match naming `nope` (which the manager lacks)
with the `required` attribute set, followed by a further match, fails job
construction with the unknown-fragment error. -/
theorem c3_unknown_fragment_witness :
    buildJobs c3Manager
        ([] ++ ({ index := 0, attribs := "fragment-name=\"nope\" required", template := "",
                  lastIndex := 58 } : TagMatch) ::
          [{ index := 60, attribs := "template", template := "X", lastIndex := 99 }]) =
      .error (.plain ("A source fragment does not exist with name " ++ "nope")) :=
  c3_unknown_fragment_amended.1 c3Manager [] []
    { index := 0, attribs := "fragment-name=\"nope\" required", template := "", lastIndex := 58 }
    [{ index := 60, attribs := "template", template := "X", lastIndex := 99 }] "nope"
    (by rfl) (by rfl) (by rfl)

/-- C4: above the depth ceiling `renderRecursive` returns the body
unchanged with no error; consequently a five-deep chain of named
fragments renders to the literal, unexpanded innermost tag (here the tag
naming `f6`, whose name is never even looked up). -/
theorem c4_depth_ceiling :
    (∀ (R : Renderer) (body : JsValue) (d : Nat), MAX_DEPTH < d →
       renderRecursive R body d = .ok body) ∧
    renderRecursive c4Renderer (.str (injTag "f1")) 1 = .ok (.str (injTag "f6")) := by
  constructor
  · intro R body d h
    unfold renderRecursive
    have h0 : MAX_DEPTH + 1 - d = 0 := by omega
    rw [h0]
    rfl
  · rfl

/-- C4 witness: the depth-ceiling branch at the concrete depth 6. -/
theorem c4_depth_ceiling_witness :
    renderRecursive c4Renderer (.str "x") 6 = .ok (.str "x") :=
  c4_depth_ceiling.1 c4Renderer (.str "x") 6 (by decide)

/-- C5: for a repeat tag whose root checks pass and whose root capture is
not a failure, an empty or absent resolved sequence renders to the empty
string with no error, and a nonempty list of `n` elements renders to the
concatenation, in list order, of the `n` per-element part-renders, each
with the dependency mapping assigned over a `current` binding to the
element (`Object.assign({current: d}, sources)`); each part-render is one
level of deeper recursion followed by the template evaluator. -/
theorem c5_repeat_semantics :
    (∀ (R : Renderer) (recur : JsValue → Except JsError JsValue) (content : JsValue)
       (deps : List String) (path : String) (S : List (String × JsValue)) (rootVal : JsValue),
       R.manager.hasFragment (rootOfPath path) = true →
       deps.contains (rootOfPath path) = true →
       fetchSources R.manager deps (some (rootOfPath path)) = .ok S →
       jsLookup S (rootOfPath path) = some rootVal →
       rootVal.isErr = false →
       ((getProperty (JsValue.obj S) path).truthy &&
         jsLengthTruthy (getProperty (JsValue.obj S) path)) = false →
       renderFragmentTryGo R recur content deps (some path) = .ok (.str "")) ∧
    (∀ (R : Renderer) (recur : JsValue → Except JsError JsValue) (content : JsValue)
       (deps : List String) (path : String) (S : List (String × JsValue)) (rootVal : JsValue)
       (xs : List JsValue),
       R.manager.hasFragment (rootOfPath path) = true →
       deps.contains (rootOfPath path) = true →
       fetchSources R.manager deps (some (rootOfPath path)) = .ok S →
       jsLookup S (rootOfPath path) = some rootVal →
       rootVal.isErr = false →
       getProperty (JsValue.obj S) path = JsValue.arr xs →
       xs ≠ [] →
       renderFragmentTryGo R recur content deps (some path) =
         (match
           exceptMapM (fun d =>
             renderFragmentPartGo R recur content (JsValue.obj (objAssign [("current", d)] S)))
             xs with
          | .error e => Except.error e
          | .ok rendered => Except.ok (.str (jsJoinEmpty rendered)))) ∧
    (∀ (R : Renderer) (d : Nat) (body dataForView : JsValue),
       renderFragmentPart R d body dataForView =
         (match
           (match renderRecursive R body (d + 1) with
            | .error e => Except.error e
            | .ok str => R.dotTemplate (jsToString str) dataForView) with
          | .ok s => Except.ok s
          | .error e => Except.error (.fragmentRender e))) := by
  refine ⟨?_, ?_, ?_⟩
  · intro R recur content deps path S rootVal hfrag hcont hfetch hlook hnerr hcond
    simp only [renderFragmentTryGo, Option.map_some', Option.isSome_some, Bool.true_and, hfrag,
      hcont, Bool.not_true, Bool.or_false, Bool.false_eq_true, if_false, hfetch, hlook]
    rcases rootVal with _ | b | n | st | ee | xs2 | fs
    · simp only [hcond, Bool.false_eq_true, if_false]
    · simp only [hcond, Bool.false_eq_true, if_false]
    · simp only [hcond, Bool.false_eq_true, if_false]
    · simp only [hcond, Bool.false_eq_true, if_false]
    · exact absurd hnerr (by simp [JsValue.isErr])
    · simp only [hcond, Bool.false_eq_true, if_false]
    · simp only [hcond, Bool.false_eq_true, if_false]
  · intro R recur content deps path S rootVal xs hfrag hcont hfetch hlook hnerr harr hne
    have hemp : xs.isEmpty = false := by
      cases xs with
      | nil => exact absurd rfl hne
      | cons y ys => rfl
    simp only [renderFragmentTryGo, Option.map_some', Option.isSome_some, Bool.true_and, hfrag,
      hcont, Bool.not_true, Bool.or_false, Bool.false_eq_true, if_false, hfetch, hlook]
    rcases rootVal with _ | b | n | st | ee | xs2 | fs
    · simp only [harr, JsValue.truthy, jsLengthTruthy, hemp, Bool.not_false, Bool.and_self,
        if_true]
    · simp only [harr, JsValue.truthy, jsLengthTruthy, hemp, Bool.not_false, Bool.and_self,
        if_true]
    · simp only [harr, JsValue.truthy, jsLengthTruthy, hemp, Bool.not_false, Bool.and_self,
        if_true]
    · simp only [harr, JsValue.truthy, jsLengthTruthy, hemp, Bool.not_false, Bool.and_self,
        if_true]
    · exact absurd hnerr (by simp [JsValue.isErr])
    · simp only [harr, JsValue.truthy, jsLengthTruthy, hemp, Bool.not_false, Bool.and_self,
        if_true]
    · simp only [harr, JsValue.truthy, jsLengthTruthy, hemp, Bool.not_false, Bool.and_self,
        if_true]
  · intro R d body dataForView
    rfl

/-- C5 witness: repeat over the two-element list `["a", "b"]` with an
evaluator exposing the `current` binding concatenates the two per-element
renders in order. -/
theorem c5_repeat_semantics_witness :
    renderFragmentTryGo c5Renderer (fun b => renderRecursive c5Renderer b 2) (.str "T")
        ["items"] (some "items.list") = .ok (.str "TaTb") := by
  have h := c5_repeat_semantics.2.1 c5Renderer (fun b => renderRecursive c5Renderer b 2)
    (.str "T") ["items"] "items.list"
    [("items", .obj [("list", .arr [.str "a", .str "b"])])]
    (.obj [("list", .arr [.str "a", .str "b"])]) [.str "a", .str "b"]
    (by rfl) (by rfl) (by rfl) (by rfl) (by rfl) (by rfl) (by simp)
  rw [h]
  rfl

/-- C6: the claim says a repeat tag whose root fetch was captured as a
failure substitutes the root fragment's `missingContentMessage(error)`
body.  The code returns the whole `{ body, contentType }` record from
`contentMissingMessage` (the shape meant for fetchers), and string
concatenation in `_injectReplacements` coerces that record to
`[object Object]` — so the configured body `oops` never reaches the
output. -/
theorem c6_repeat_fetch_failure_substitution :
    renderRecursive c6Renderer
        (.str "<fragment-inject template fragment-repeat=\"items.list\" models=\"items\">T</fragment-inject>") 1
      = .ok (.str "[object Object]") ∧
    c6ItemsFragment.contentMissingMessage (.plain "down")
      = .obj [("body", .str "oops"), ("contentType", .str "text/html")] :=
  ⟨by rfl, by rfl⟩

/-- C7 counterexample: a repeat tag whose path root `zzz` is neither a
known fragment nor among its `models`, on an optional embedded fragment.
The claim says the failure is fatal for the whole render regardless of
required-ness; instead the `InvalidRepeatSource` error is created as a
`FragmentRenderError`, so the catch swallows it and the render succeeds
with the default render-error message. -/
theorem c7_invalid_repeat_source_counterexample :
    renderRecursive c7Renderer
        (.str "<fragment-inject template fragment-repeat=\"zzz.list\" models=\"items\">T</fragment-inject>") 1
      = .ok (.str "<p>Sorry this content could not be rendered. Please try again.</p>") := by
  rfl

/-- C7 amended: a repeat tag whose path root is unknown or undeclared
fails with the `InvalidRepeatSource` message wrapped as a
`FragmentRenderError`; the failure aborts the render when the fragment is
effectively required, and is otherwise recovered into the fragment's
render-error message. -/
theorem c7_invalid_repeat_source_amended :
    (∀ (R : Renderer) (recur : JsValue → Except JsError JsValue) (content : JsValue)
       (deps : List String) (path : String),
       (R.manager.hasFragment (rootOfPath path) = false ∨
         deps.contains (rootOfPath path) = false) →
       renderFragmentTryGo R recur content deps (some path) =
         .error (.fragmentRender (.plain (invalidRepeatSourceMsg path)))) ∧
    (∀ (R : Renderer) (recur : JsValue → Except JsError JsValue) (inj : Fragment)
       (content : JsValue) (deps : List String) (rdn : Option String) (e : JsError),
       renderFragmentTryGo R recur content deps rdn = .error e →
       renderFragmentGo R recur inj content true deps rdn = .error e) ∧
    (∀ (R : Renderer) (recur : JsValue → Except JsError JsValue) (inj : Fragment)
       (content : JsValue) (deps : List String) (rdn : Option String) (e : JsError),
       renderFragmentTryGo R recur content deps rdn = .error e →
       isFragmentRenderError e = true →
       renderFragmentGo R recur inj content false deps rdn =
         .ok (jsOr (inj.contentRenderErrorMessage e) (.str ""))) := by
  refine ⟨?_, ?_, ?_⟩
  · intro R recur content deps path h
    simp only [renderFragmentTryGo, Option.map_some', Option.isSome_some, Bool.true_and,
      Option.getD_some]
    rcases h with h | h
    · simp only [h, Bool.not_false, Bool.true_or, if_true]
    · simp only [h, Bool.not_false, Bool.or_true, if_true]
  · intro R recur inj content deps rdn e ht
    simp only [renderFragmentGo, ht, Bool.not_true, Bool.and_false, Bool.false_eq_true, if_false]
  · intro R recur inj content deps rdn e ht hfre
    simp only [renderFragmentGo, ht, hfre, Bool.not_false, Bool.and_true, if_true]

/-- C7 witness: the concrete invalid repeat source on an optional
fragment resolves to the default render-error message value. -/
theorem c7_invalid_repeat_source_witness :
    renderFragmentGo c7Renderer (fun b => renderRecursive c7Renderer b 2) c7Fragment
        (.str "T") false ["items"] (some "zzz.list") =
      .ok (jsOr (c7Fragment.contentRenderErrorMessage
        (.fragmentRender (.plain (invalidRepeatSourceMsg "zzz.list")))) (.str "")) :=
  c7_invalid_repeat_source_amended.2.2 c7Renderer (fun b => renderRecursive c7Renderer b 2)
    c7Fragment (.str "T") ["items"] (some "zzz.list")
    (.fragmentRender (.plain (invalidRepeatSourceMsg "zzz.list"))) (by rfl) (by rfl)

/-- C8 counterexample: `fragmentBody` on a name absent from the fragment
table does not fail with an unknown-fragment error — it invokes the
fetcher (here one that succeeds on anything) and returns its body. -/
theorem c8_fragment_body_counterexample :
    c8OkManager.fragmentBody "nope" ⟨false⟩ = .ok (.str "X") := by
  rfl

/-- C8 amended: for a name absent from the table, `fragmentBody` passes
the `undefined` lookup straight to the fetcher; the call succeeds or fails
exactly as the fetcher does on an `undefined` fragment, and no
`UnknownFragmentReference` is raised by the manager. -/
theorem c8_fragment_body_amended :
    (∀ (m : Manager) (name : String) (opts : FetchOptions) (fb : FragmentBody),
       m.fragment name = none → m.fetch none opts = .ok fb →
       m.fragmentBody name opts = .ok fb.body) ∧
    (∀ (m : Manager) (name : String) (opts : FetchOptions) (e : JsError),
       m.fragment name = none → m.fetch none opts = .error e →
       m.fragmentBody name opts = .error e) := by
  constructor
  · intro m name opts fb hn hf
    simp only [Manager.fragmentBody, hn, hf, Except.map]
  · intro m name opts e hn hf
    simp only [Manager.fragmentBody, hn, hf, Except.map]

/-- C8 witness: with a fetcher that rejects on an `undefined` fragment,
the absent name surfaces the fetcher's own error. -/
theorem c8_fragment_body_witness :
    c8ErrManager.fragmentBody "nope" ⟨false⟩ = .error (.plain "fetcher saw undefined") :=
  c8_fragment_body_amended.2 c8ErrManager "nope" ⟨false⟩ (.plain "fetcher saw undefined")
    (by rfl) (by rfl)

/-- C9: a body whose scan yields no injection-tag matches is returned
unchanged by `renderRecursive` at any legal depth — the reconstruction
over an empty match list is the identity. -/
theorem c9_no_tags_identity :
    ∀ (R : Renderer) (s : String) (d : Nat), d ≤ MAX_DEPTH → scanTags s = [] →
      renderRecursive R (.str s) d = .ok (.str s) := by
  intro R s d hd hscan
  rw [renderRecursive_eq]
  have hnot : ¬ MAX_DEPTH < d := by omega
  simp only [hnot, if_false]
  show levelStep _ _ _ = _
  simp only [levelStep, JsValue.isUndef, Bool.false_eq_true, if_false, jsToString, hscan,
    buildJobs, exceptMapM, injectReplacements_nil]

/-- C9 witness: a concrete tag-free body renders to itself at depth 1. -/
theorem c9_no_tags_identity_witness :
    renderRecursive c9Renderer (.str "plain text with no tags") 1
      = .ok (.str "plain text with no tags") :=
  c9_no_tags_identity c9Renderer "plain text with no tags" 1 (by decide) (by rfl)

/-- C10: `render` performs the base fetch twice — the first invocation via
`baseBody`, the second via `baseContentType` — before any recursive
rendering: a failure of either fetch fails the render outright, and on
success the rendered body comes from the first fetch while the returned
content type comes from the second. -/
theorem c10_base_double_fetch :
    (∀ (m : ManagerTop) (ev : String → JsValue → Except JsError String) (e : JsError),
       m.fetchBase 0 = .error e → render m ev = .error e) ∧
    (∀ (m : ManagerTop) (ev : String → JsValue → Except JsError String) (fb0 : FragmentBody)
       (e : JsError),
       m.fetchBase 0 = .ok fb0 → m.fetchBase 1 = .error e → render m ev = .error e) ∧
    (∀ (m : ManagerTop) (ev : String → JsValue → Except JsError String)
       (fb0 fb1 : FragmentBody) (out : JsValue),
       m.fetchBase 0 = .ok fb0 → m.fetchBase 1 = .ok fb1 →
       renderRecursive ⟨m.core, ev⟩ fb0.body 1 = .ok out →
       render m ev = .ok { body := out, contentType := fb1.contentType }) := by
  refine ⟨?_, ?_, ?_⟩
  · intro m ev e h0
    simp only [render, ManagerTop.baseBody, h0, Except.map]
  · intro m ev fb0 e h0 h1
    simp only [render, ManagerTop.baseBody, ManagerTop.baseContentType, h0, h1, Except.map]
  · intro m ev fb0 fb1 out h0 h1 hrec
    simp only [render, ManagerTop.baseBody, ManagerTop.baseContentType, h0, h1, Except.map, hrec]

/-- C10 witness: with a base fetcher whose content type differs between
invocations, the rendered result carries the content type of the second
fetch. -/
theorem c10_base_double_fetch_witness :
    render c10Manager idEval = .ok { body := .str "B", contentType := "application/json" } :=
  c10_base_double_fetch.2.2 c10Manager idEval
    { body := .str "B", contentType := "text/plain" }
    { body := .str "B", contentType := "application/json" } (.str "B")
    (by rfl) (by rfl) (by rfl)
